import Mathlib

/-!
# Verification of the pystrike charge synchronization engine

A shallow embedding of `pystrike/charge.py` (and `pystrike/exceptions.py`):
the `Charge` entity, the request construction of `update()`, the transport
interaction of `_make_request()` (including the retry-on-disconnect quirk),
the field-filling of `_fill_from_data_dict()` and the error classification
of `update()`.

Python objects are mutated in place; we model the entity as an explicit
state value threaded through the operations.  Python exceptions become an
explicit `PyExc` value: the pystrike taxonomy exceptions, and the Python
built-in exceptions that can escape the code (`KeyError`,
`json.JSONDecodeError`, `UnboundLocalError`, and a generic "other"
exception for transport failures the code does not catch specifically).
The HTTPS connection is an oracle (`Transport`) giving the outcome of the
n-th `request()` and the n-th `getresponse()` call; the parsed JSON body
is a record of optional fields matching the wire protocol.
-/

namespace Pystrike

/-- The parsed JSON response body, as a record of the keys the code ever
looks up.  A `none` field models an absent key (lookup raises `KeyError`).
Types follow the wire protocol: strings, integers, and a boolean `paid`. -/
structure DataDict where
  id : Option String
  amount : Option Int
  currency : Option String
  amount_satoshi : Option Int
  payment_hash : Option String
  payment_request : Option String
  description : Option String
  paid : Option Bool
  created : Option Int
  updated : Option Int
  code : Option Int
  message : Option String
deriving DecidableEq

/-- The mutable attribute state of a `Charge` instance, as set up by
`Charge.__init__` (caller fields, then the server-only fields). -/
structure ChargeState where
  amount : Int
  currency : String
  description : String
  customer_id : String
  id : Option String
  amount_satoshi : Option Int
  payment_request : Option String
  payment_hash : Option String
  paid : Bool
  created : Option Int
  updated : Option Int
deriving DecidableEq

/-- The per-class configuration installed by `make_charge_class`. -/
structure Config where
  api_key : String
  api_host : String
  api_base : String
deriving DecidableEq

/-- The constant `Charge.CURRENCY_BTC`. -/
def CURRENCY_BTC : String := "btc"

/-- Exceptions that can escape the sync engine: the five pystrike
taxonomy exceptions (from `pystrike/exceptions.py`), plus the Python
built-ins the code lets through. -/
inductive PyExc where
  | connectionException (msg : String)
  | clientRequestException (msg : String)
  | serverErrorException (msg : String)
  | unexpectedResponseException (msg : String)
  | chargeNotFoundException (msg : String)
  | keyError (key : String)
  | jsonDecodeError
  | unboundLocalError (name : String)
  | otherError
deriving DecidableEq

/-- Whether an exception belongs to the pystrike error taxonomy
(is declared in `pystrike/exceptions.py`), as opposed to a Python
built-in escaping the library. -/
def PyExc.isTaxonomy : PyExc → Bool
  | .connectionException _ => true
  | .clientRequestException _ => true
  | .serverErrorException _ => true
  | .unexpectedResponseException _ => true
  | .chargeNotFoundException _ => true
  | .keyError _ => false
  | .jsonDecodeError => false
  | .unboundLocalError _ => false
  | .otherError => false

/-- In the source, `ChargeNotFoundException` subclasses `ClientRequestException`; both
are 4xx-class taxonomy errors.  `isInstanceClientRequest e` is Python's
`isinstance(e, ClientRequestException)`. -/
def PyExc.isInstanceClientRequest : PyExc → Bool
  | .clientRequestException _ => true
  | .chargeNotFoundException _ => true
  | _ => false

/-! ## Encoding helpers (`base64.b64encode`, `urllib.parse.urlencode`) -/

/-- UTF-8 encoding of one character, as byte values (Python `str.encode()`). -/
def charUtf8 (c : Char) : List Nat :=
  let n := c.toNat
  if n < 0x80 then [n]
  else if n < 0x800 then [0xC0 + n / 64, 0x80 + n % 64]
  else if n < 0x10000 then [0xE0 + n / 4096, 0x80 + n / 64 % 64, 0x80 + n % 64]
  else [0xF0 + n / 262144, 0x80 + n / 4096 % 64, 0x80 + n / 64 % 64, 0x80 + n % 64]

/-- UTF-8 encoding of a string, as byte values. -/
def utf8Bytes (s : String) : List Nat :=
  s.data.flatMap charUtf8

/-- The base64 alphabet character for a sextet value. -/
def b64Char (n : Nat) : Char :=
  "ABCDEFGHIJKLMNOPQRSTUVWXYZabcdefghijklmnopqrstuvwxyz0123456789+/".toList.getD n 'A'

/-- Python's `base64.b64encode` on a byte list, producing the ASCII result string. -/
def b64Encode : List Nat → String
  | [] => ""
  | [a] =>
      String.mk [b64Char (a / 4), b64Char (a % 4 * 16)] ++ "=="
  | [a, b] =>
      String.mk [b64Char (a / 4), b64Char (a % 4 * 16 + b / 16),
                 b64Char (b % 16 * 4)] ++ "="
  | a :: b :: c :: rest =>
      String.mk [b64Char (a / 4), b64Char (a % 4 * 16 + b / 16),
                 b64Char (b % 16 * 4 + c / 64), b64Char (c % 64)] ++ b64Encode rest

/-- The bytes that `urllib.parse.quote_plus` leaves unescaped
(letters, digits, `_`, `.`, `-`, `~`). -/
def isUnreservedByte (b : Nat) : Bool :=
  (65 ≤ b && b ≤ 90) || (97 ≤ b && b ≤ 122) || (48 ≤ b && b ≤ 57) ||
  b == 95 || b == 46 || b == 45 || b == 126

/-- Uppercase hex digit. -/
def hexDigit (n : Nat) : Char :=
  "0123456789ABCDEF".toList.getD n '0'

/-- The `quote_plus` treatment of one byte: space becomes `+`, unreserved
bytes pass through, everything else is percent-escaped. -/
def quoteByte (b : Nat) : List Char :=
  if b == 32 then ['+']
  else if isUnreservedByte b then [Char.ofNat b]
  else ['%', hexDigit (b / 16 % 16), hexDigit (b % 16)]

/-- Python's `urllib.parse.quote_plus` on a string. -/
def quotePlus (s : String) : String :=
  String.mk ((utf8Bytes s).flatMap quoteByte)

/-- Python's `urllib.parse.urlencode` on an association list (Python dicts keep
insertion order, so the list order is the dict's key order). -/
def urlencode (kvs : List (String × String)) : String :=
  String.intercalate "&" (kvs.map (fun kv => quotePlus kv.fst ++ "=" ++ quotePlus kv.snd))

/-! ## The transport oracle and `_make_request` -/

/-- The raw response body handed back by `response.read()`: either
well-formed JSON parsing to a `DataDict`, or malformed. -/
inductive Raw where
  | wellFormed (d : DataDict)
  | malformed
deriving DecidableEq

/-- Outcome of one `api_connection.request(...)` call: success, a
`socket.gaierror`, or some other exception (only `gaierror` is caught
around the first request). -/
inductive SendOutcome where
  | ok
  | gaierror
  | otherFail
deriving DecidableEq

/-- Outcome of one `api_connection.getresponse()` call: a response whose
body is `raw`, an `http.client.RemoteDisconnected`, or any other failure
(of the response-reading kind the bare `except:` catches). -/
inductive RecvOutcome where
  | ok (raw : Raw)
  | remoteDisconnected
  | fail
deriving DecidableEq

/-- The transport oracle: the outcome of the n-th `request()` call and of
the n-th `getresponse()` call made during one `_make_request`. -/
structure Transport where
  send : Nat → SendOutcome
  recv : Nat → RecvOutcome

/-- A transport that accepts the request and returns one well-formed body
`d` on every attempt. -/
def pureTransport (d : DataDict) : Transport :=
  { send := fun _ => .ok, recv := fun _ => .ok (.wellFormed d) }

/-- An outbound HTTP request as built by `update()`:
method, path, optional body string, and headers in dict order. -/
structure RequestLine where
  method : String
  path : String
  body : Option String
  headers : List (String × String)
deriving DecidableEq

/-- Python's `json.loads` applied to the response body. -/
def jsonLoads : Raw → Except PyExc DataDict
  | .wellFormed d => .ok d
  | .malformed => .error .jsonDecodeError

/-- The message of every `ConnectionException` the code raises. -/
def connMsg : String := "Unable to communicate with host."

/-- The method `Charge._make_request(method, path, body, headers)`.

Returns the parsed body or the escaping exception, together with the list
of `request()` calls attempted (each entry is the request as sent).
Faithful to the source's control flow:

* the first `request()` converts `socket.gaierror` to
  `ConnectionException`; any other exception there propagates;
* `getresponse()` failures other than `RemoteDisconnected` are caught by
  the bare `except:` and become `ConnectionException`;
* on `RemoteDisconnected` with method `GET`, the same request is resent
  once and any failure of that retry becomes `ConnectionException`;
* on `RemoteDisconnected` with any other method, the handler suppresses
  the exception without binding `response`, so the final
  `json.loads(response.read())` — which sits outside the `try:` — raises
  `UnboundLocalError`;
* `json.loads` is outside the `try:`, so a malformed body raises
  `json.JSONDecodeError` uncaught. -/
def make_request (t : Transport) (r : RequestLine) :
    Except PyExc DataDict × List RequestLine :=
  match t.send 0 with
  | .gaierror => (.error (.connectionException connMsg), [r])
  | .otherFail => (.error .otherError, [r])
  | .ok =>
    match t.recv 0 with
    | .ok raw => (jsonLoads raw, [r])
    | .fail => (.error (.connectionException connMsg), [r])
    | .remoteDisconnected =>
      if r.method = "GET" then
        match t.send 1 with
        | .ok =>
          match t.recv 1 with
          | .ok raw => (jsonLoads raw, [r, r])
          | .remoteDisconnected => (.error (.connectionException connMsg), [r, r])
          | .fail => (.error (.connectionException connMsg), [r, r])
        | .gaierror => (.error (.connectionException connMsg), [r, r])
        | .otherFail => (.error (.connectionException connMsg), [r, r])
      else
        (.error (.unboundLocalError "response"), [r])

/-! ## `_fill_from_data_dict` -/

/-- The method `Charge._fill_from_data_dict(data)`.

The source assigns the ten attributes one at a time, in this order,
reading `data[key]` for each; the first missing key raises `KeyError`
there, leaving the earlier assignments in place.  The result is the state
after the assignments that did run, paired with the missing key of the
raised `KeyError` (`none` when the fill completed). -/
def fill_from_data_dict (s : ChargeState) (d : DataDict) :
    ChargeState × Option String :=
  match d.id with
  | none => (s, some "id")
  | some v0 =>
  let s := { s with id := some v0 }
  match d.amount with
  | none => (s, some "amount")
  | some v1 =>
  let s := { s with amount := v1 }
  match d.currency with
  | none => (s, some "currency")
  | some v2 =>
  let s := { s with currency := v2 }
  match d.amount_satoshi with
  | none => (s, some "amount_satoshi")
  | some v3 =>
  let s := { s with amount_satoshi := some v3 }
  match d.payment_hash with
  | none => (s, some "payment_hash")
  | some v4 =>
  let s := { s with payment_hash := some v4 }
  match d.payment_request with
  | none => (s, some "payment_request")
  | some v5 =>
  let s := { s with payment_request := some v5 }
  match d.description with
  | none => (s, some "description")
  | some v6 =>
  let s := { s with description := v6 }
  match d.paid with
  | none => (s, some "paid")
  | some v7 =>
  let s := { s with paid := v7 }
  match d.created with
  | none => (s, some "created")
  | some v8 =>
  let s := { s with created := some v8 }
  match d.updated with
  | none => (s, some "updated")
  | some v9 =>
  ({ s with updated := some v9 }, none)

/-! ## Error classification and `update` -/

/-- A rendering of `json.dumps(data)` over the keys the dict may hold
(fixed key order; strings quoted, integers and booleans bare). -/
def jsonDumps (d : DataDict) : String :=
  let strF := fun (k : String) (v : Option String) =>
    (v.map (fun x => "\"" ++ k ++ "\": \"" ++ x ++ "\"")).toList
  let intF := fun (k : String) (v : Option Int) =>
    (v.map (fun x => "\"" ++ k ++ "\": " ++ toString x)).toList
  let boolF := fun (k : String) (v : Option Bool) =>
    (v.map (fun x => "\"" ++ k ++ "\": " ++ (if x then "true" else "false"))).toList
  "\x7b" ++ String.intercalate ", "
    (strF "id" d.id ++ intF "amount" d.amount ++ strF "currency" d.currency ++
     intF "amount_satoshi" d.amount_satoshi ++ strF "payment_hash" d.payment_hash ++
     strF "payment_request" d.payment_request ++ strF "description" d.description ++
     boolF "paid" d.paid ++ intF "created" d.created ++ intF "updated" d.updated ++
     intF "code" d.code ++ strF "message" d.message) ++ "\x7d"

/-- The message of the `UnexpectedResponseException` raised by `update()`. -/
def unexpectedMsg (d : DataDict) : String :=
  "The strike server returned an unexpected response: " ++ jsonDumps d

/-- The `except KeyError:` classification block of `Charge.update()`:
`data['code'] == 404` gives `ChargeNotFoundException(data['message'])`,
400–499 gives `ClientRequestException`, 500–599 `ServerErrorException`,
anything else falls through to `UnexpectedResponseException` carrying the
dumped body.  Looking up `data['message']` itself raises `KeyError` when
that key is absent. -/
def classifyError (d : DataDict) : PyExc :=
  match d.code with
  | some c =>
    if c = 404 then
      match d.message with
      | some m => .chargeNotFoundException m
      | none => .keyError "message"
    else if 400 ≤ c ∧ c ≤ 499 then
      match d.message with
      | some m => .clientRequestException m
      | none => .keyError "message"
    else if 500 ≤ c ∧ c ≤ 599 then
      match d.message with
      | some m => .serverErrorException m
      | none => .keyError "message"
    else
      .unexpectedResponseException (unexpectedMsg d)
  | none => .unexpectedResponseException (unexpectedMsg d)

/-- The `Authorization` header value:
`'Basic ' + base64.b64encode(api_key.encode() + b':').decode('ascii')`. -/
def authHeaderValue (api_key : String) : String :=
  "Basic " ++ b64Encode (utf8Bytes api_key ++ [58])

/-- The request `update()` builds: POST to the charges collection with the
form-encoded caller fields when `id` is unset (`must_create`), otherwise
GET of the single charge with no body. -/
def buildRequest (cfg : Config) (s : ChargeState) : RequestLine :=
  if s.id = none then
    { method := "POST"
      path := cfg.api_base ++ "charges"
      body := some (urlencode
        [("amount", toString s.amount), ("currency", s.currency),
         ("description", s.description), ("customer_id", s.customer_id)])
      headers :=
        [("Authorization", authHeaderValue cfg.api_key),
         ("Content-Type", "application/x-www-form-urlencoded"),
         ("Accept", "*/*"),
         ("User-Agent", "pystrikev0.5.1")] }
  else
    { method := "GET"
      path := cfg.api_base ++ "charges/" ++ s.id.getD ""
      body := none
      headers :=
        [("Authorization", authHeaderValue cfg.api_key),
         ("Accept", "*/*"),
         ("User-Agent", "pystrikev0.5.1")] }

/-- Result of one `update()` call: the entity state afterwards (Python
mutates `self` in place, so the state after a failed call is whatever the
partial fill left), the escaping exception if any, and the log of
requests sent. -/
structure UpdateResult where
  state : ChargeState
  exc : Option PyExc
  log : List RequestLine
deriving DecidableEq

/-- The method `Charge.update()`: build the request from the current state, perform
`_make_request`, then try `_fill_from_data_dict`; a `KeyError` from the
fill is classified per `classifyError` (partial assignments persist). -/
def update (cfg : Config) (t : Transport) (s : ChargeState) : UpdateResult :=
  let r := buildRequest cfg s
  match make_request t r with
  | (.error e, log) => { state := s, exc := some e, log := log }
  | (.ok d, log) =>
    match fill_from_data_dict s d with
    | (s2, none) => { state := s2, exc := none, log := log }
    | (s2, some _) => { state := s2, exc := some (classifyError d), log := log }

/-- The attribute state `Charge.__init__` installs before the optional
`self.update()` call. -/
def initCharge (amount : Int) (currency description customer_id : String) :
    ChargeState :=
  { amount := amount, currency := currency, description := description,
    customer_id := customer_id, id := none, amount_satoshi := none,
    payment_request := none, payment_hash := none, paid := false,
    created := none, updated := none }

/-- The constructor `Charge.__init__(amount, currency, description, customer_id, create)`:
set up the fields, then `update()` when `create` is true. -/
def constructCharge (cfg : Config) (t : Transport) (amount : Int)
    (currency description customer_id : String) (create : Bool) : UpdateResult :=
  let s := initCharge amount currency description customer_id
  if create then update cfg t s
  else { state := s, exc := none, log := [] }

/-- The class method `Charge.from_charge_id(charge_id)`: construct with `create=False`,
set `id`, then `update()`. -/
def from_charge_id (cfg : Config) (t : Transport) (charge_id : String) :
    UpdateResult :=
  let s := initCharge 0 CURRENCY_BTC "" ""
  update cfg t { s with id := some charge_id }

/-! ## Lazy attribute access (modelled from the spec)

The repository's `charge.py` documents implicit synchronization on
attribute access (its class docstring, and `update()` reads the raw slot
via `super().__getattribute__('id')` to bypass an interception hook), but
the `__getattribute__` override itself is not part of this source tree.
The access layer below is therefore modelled from the spec. -/

/-- The public attributes of a `Charge`. -/
inductive FieldName where
  | amount
  | currency
  | description
  | customer_id
  | id
  | amount_satoshi
  | payment_request
  | payment_hash
  | paid
  | created
  | updated
deriving DecidableEq

/-- The value of one attribute. -/
inductive FieldVal where
  | int (v : Int)
  | str (v : String)
  | optInt (v : Option Int)
  | optStr (v : Option String)
  | bool (v : Bool)
deriving DecidableEq

/-- Plain slot read of an attribute. -/
def readField (s : ChargeState) : FieldName → FieldVal
  | .amount => .int s.amount
  | .currency => .str s.currency
  | .description => .str s.description
  | .customer_id => .str s.customer_id
  | .id => .optStr s.id
  | .amount_satoshi => .optInt s.amount_satoshi
  | .payment_request => .optStr s.payment_request
  | .payment_hash => .optStr s.payment_hash
  | .paid => .bool s.paid
  | .created => .optInt s.created
  | .updated => .optInt s.updated

/-- Modelled from the spec: whether an attribute read triggers a
synchronization.  The spec's lazy access contract: a server-only field
among `id`, `amount_satoshi`, `payment_request`, `created`, `updated`
triggers while unset; `paid` triggers while still false; caller-supplied
fields never trigger. -/
def needsSync (s : ChargeState) : FieldName → Bool
  | .id => s.id.isNone
  | .amount_satoshi => s.amount_satoshi.isNone
  | .payment_request => s.payment_request.isNone
  | .created => s.created.isNone
  | .updated => s.updated.isNone
  | .paid => !s.paid
  | _ => false

/-- Result of one lazy attribute read: the state afterwards, the escaping
exception if any, how many synchronizations ran, and the returned value
(absent when an exception escaped). -/
structure AccessResult where
  state : ChargeState
  exc : Option PyExc
  syncCount : Nat
  value : Option FieldVal
deriving DecidableEq

/-- Modelled from the spec: the lazy attribute accessor.  When the read
needs a synchronization it performs exactly one `update()` and then
returns the attribute from the refreshed state; otherwise it returns the
slot value with no network traffic. -/
def getattrCharge (cfg : Config) (t : Transport) (s : ChargeState)
    (f : FieldName) : AccessResult :=
  if needsSync s f then
    let u := update cfg t s
    match u.exc with
    | some e => { state := u.state, exc := some e, syncCount := 1, value := none }
    | none => { state := u.state, exc := none, syncCount := 1,
                value := some (readField u.state f) }
  else
    { state := s, exc := none, syncCount := 0, value := some (readField s f) }

/-! ## Concrete fixtures for witnesses and counterexamples -/

/-- A concrete configuration. -/
def cfg0 : Config :=
  { api_key := "testkey", api_host := "api.dev.strike.acinq.co",
    api_base := "/api/v1/" }

/-- A freshly constructed, not-yet-created charge (`create=False`). -/
def s0 : ChargeState := initCharge 100 CURRENCY_BTC "note" "cust"

/-- A charge already created remotely (all server fields set, unpaid). -/
def sSynced : ChargeState :=
  { amount := 4200, currency := "btc", description := "invoice",
    customer_id := "cust", id := some "ch_abc123", amount_satoshi := some 4200,
    payment_request := some "lntb1payreq", payment_hash := some "hash0",
    paid := false, created := some 1500000000, updated := some 1500000001 }

/-- A charge whose payment has been observed (`paid = true`). -/
def sPaid : ChargeState := { sSynced with paid := true }

/-- A complete success-shaped response body. -/
def dFull : DataDict :=
  { id := some "ch_abc123", amount := some 4200, currency := some "btc",
    amount_satoshi := some 4200, payment_hash := some "hash0",
    payment_request := some "lntb1payreq", description := some "invoice",
    paid := some false, created := some 1500000000, updated := some 1500000001,
    code := none, message := none }

/-- The empty body (no keys at all). -/
def dEmpty : DataDict :=
  { id := none, amount := none, currency := none, amount_satoshi := none,
    payment_hash := none, payment_request := none, description := none,
    paid := none, created := none, updated := none, code := none,
    message := none }

/-- An error-shaped body: 404 with a message. -/
def dErr404 : DataDict := { dEmpty with code := some 404, message := some "Charge not found" }

/-- An error-shaped body with a code but no message. -/
def dCode404 : DataDict := { dEmpty with code := some 404 }

/-- A 5xx body with no message key. -/
def dCode500 : DataDict := { dEmpty with code := some 500 }

/-- A body holding a strict prefix of the success keys (through
`currency`) together with an error code: triggers a partial fill. -/
def dPartial404 : DataDict :=
  { dEmpty with
    id := some "ch_x", amount := some 5, currency := some "btc",
    code := some 404, message := some "gone" }

/-- A success body reporting the charge as no longer paid. -/
def dRevert : DataDict := { dFull with paid := some false }

/-- A body holding the success keys through `paid` (true) but missing
`created`: the fill sets `paid` and then fails. -/
def dPartialPaid : DataDict :=
  { dFull with
    paid := some true, created := none }

/-- An error-shaped body: 422 with a message. -/
def dErr422 : DataDict := { dEmpty with code := some 422, message := some "invalid currency" }

/-- An error-shaped body: 500 with a message. -/
def dErr500m : DataDict := { dEmpty with code := some 500, message := some "server broke" }

/-- A body with an unmapped code and no message. -/
def dCode302 : DataDict := { dEmpty with code := some 302 }

/-- The charge `sSynced` owned by customer A. -/
def sCustA : ChargeState := { sSynced with customer_id := "custA" }

/-- The charge `sSynced` owned by customer B. -/
def sCustB : ChargeState := { sSynced with customer_id := "custB" }

/-- A transport whose `request()` always raises `socket.gaierror`. -/
def tGaierror : Transport :=
  { send := fun _ => .gaierror, recv := fun _ => .fail }

/-- A transport that always answers with one malformed body. -/
def tMalformed : Transport :=
  { send := fun _ => .ok, recv := fun _ => .ok (.malformed) }

/-- A transport that disconnects on the first `getresponse()` and then
serves a malformed body. -/
def tDiscMalformed : Transport :=
  { send := fun _ => .ok,
    recv := fun n => if n = 0 then .remoteDisconnected else .ok .malformed }

/-- A transport whose every `getresponse()` raises `RemoteDisconnected`. -/
def tDiscAll : Transport :=
  { send := fun _ => .ok, recv := fun _ => .remoteDisconnected }

/-- A transport that disconnects on the first `getresponse()` and then
serves `d`. -/
def tDiscThen (d : DataDict) : Transport :=
  { send := fun _ => .ok,
    recv := fun n => if n = 0 then .remoteDisconnected else .ok (.wellFormed d) }

/-! ## Helper lemmas -/

/-- Every `_make_request` execution attempts the given request first. -/
lemma make_request_log_head (t : Transport) (r : RequestLine) :
    (make_request t r).2.head? = some r := by
  unfold make_request
  cases hs : t.send 0 with
  | gaierror => rfl
  | otherFail => rfl
  | ok =>
    cases hr : t.recv 0 with
    | ok raw => rfl
    | fail => rfl
    | remoteDisconnected =>
      by_cases hm : r.method = "GET"
      · rw [if_pos hm]
        cases hs1 : t.send 1 with
        | ok => cases hr1 : t.recv 1 <;> rfl
        | gaierror => rfl
        | otherFail => rfl
      · rw [if_neg hm]
        rfl

/-- At most two requests are ever attempted, and two only for a GET
whose first response read hit a premature disconnect. -/
lemma make_request_log_bound (t : Transport) (r : RequestLine) :
    (make_request t r).2.length ≤ 2 ∧
    ((make_request t r).2.length = 2 →
      r.method = "GET" ∧ t.recv 0 = .remoteDisconnected) := by
  unfold make_request
  cases hs : t.send 0 with
  | gaierror => exact ⟨by simp, by simp⟩
  | otherFail => exact ⟨by simp, by simp⟩
  | ok =>
    cases hr : t.recv 0 with
    | ok raw => exact ⟨by simp, by simp⟩
    | fail => exact ⟨by simp, by simp⟩
    | remoteDisconnected =>
      by_cases hm : r.method = "GET"
      · rw [if_pos hm]
        cases hs1 : t.send 1 with
        | ok =>
          cases hr1 : t.recv 1 <;> exact ⟨by simp, fun _ => ⟨hm, rfl⟩⟩
        | gaierror => exact ⟨by simp, fun _ => ⟨hm, rfl⟩⟩
        | otherFail => exact ⟨by simp, fun _ => ⟨hm, rfl⟩⟩
      · rw [if_neg hm]
        exact ⟨by simp, by simp⟩

/-- The GET retry path of `_make_request`: the identical request is sent
a second time, and any failure of the retry becomes
`ConnectionException`. -/
lemma make_request_get_retry (t : Transport) (r : RequestLine)
    (hm : r.method = "GET") (h0 : t.send 0 = .ok)
    (h1 : t.recv 0 = .remoteDisconnected) :
    (make_request t r).2 = [r, r] ∧
    (t.send 1 ≠ .ok →
      (make_request t r).1 = .error (.connectionException connMsg)) ∧
    (t.recv 1 = .remoteDisconnected ∨ t.recv 1 = .fail →
      (make_request t r).1 = .error (.connectionException connMsg)) := by
  unfold make_request
  rw [h0, h1, if_pos hm]
  cases hs1 : t.send 1 with
  | ok =>
    cases hr1 : t.recv 1 with
    | ok raw =>
      refine ⟨rfl, fun h => absurd rfl h, fun h => ?_⟩
      rcases h with h | h <;> simp [hr1] at h
    | remoteDisconnected => exact ⟨rfl, fun h => absurd rfl h, fun _ => rfl⟩
    | fail => exact ⟨rfl, fun h => absurd rfl h, fun _ => rfl⟩
  | gaierror => exact ⟨rfl, fun _ => rfl, fun _ => rfl⟩
  | otherFail => exact ⟨rfl, fun _ => rfl, fun _ => rfl⟩

/-- Every `update()` logs exactly the requests `_make_request` attempted. -/
lemma update_log (cfg : Config) (t : Transport) (s : ChargeState) :
    (update cfg t s).log = (make_request t (buildRequest cfg s)).2 := by
  simp only [update]
  split
  next e l heq => rw [heq]
  next d l heq => split <;> rw [heq]

/-- When `_make_request` fails, `update()` re-raises the exception and
leaves the entity untouched. -/
lemma update_of_mr_error (cfg : Config) (t : Transport) (s : ChargeState)
    (e : PyExc) (l : List RequestLine)
    (h : make_request t (buildRequest cfg s) = (.error e, l)) :
    update cfg t s = { state := s, exc := some e, log := l } := by
  simp only [update, h]

/-- When `_make_request` returns a parsed body `d`, the state after
`update()` is the fill's result and the exception is the classification
of `d` exactly when the fill was incomplete. -/
lemma update_of_response (cfg : Config) (t : Transport) (s : ChargeState)
    (d : DataDict) (hs : t.send 0 = .ok)
    (hr : t.recv 0 = .ok (.wellFormed d)) :
    (update cfg t s).state = (fill_from_data_dict s d).1 ∧
    (update cfg t s).exc =
      (fill_from_data_dict s d).2.map (fun _ => classifyError d) := by
  have hmr : make_request t (buildRequest cfg s) = (.ok d, [buildRequest cfg s]) := by
    unfold make_request
    rw [hs, hr]
    rfl
  simp only [update, hmr]
  rcases hf : fill_from_data_dict s d with ⟨s2, k⟩
  cases k <;> simp

/-- A body whose every success key is present fills completely,
overwriting the nine server-reported attributes in one step and leaving
`customer_id` alone. -/
lemma fill_complete (s : ChargeState) (d : DataDict)
    (v0 : String) (v1 : Int) (v2 : String) (v3 : Int) (v4 v5 v6 : String)
    (v7 : Bool) (v8 v9 : Int)
    (h0 : d.id = some v0) (h1 : d.amount = some v1) (h2 : d.currency = some v2)
    (h3 : d.amount_satoshi = some v3) (h4 : d.payment_hash = some v4)
    (h5 : d.payment_request = some v5) (h6 : d.description = some v6)
    (h7 : d.paid = some v7) (h8 : d.created = some v8)
    (h9 : d.updated = some v9) :
    fill_from_data_dict s d =
      ({ amount := v1, currency := v2, description := v6,
         customer_id := s.customer_id, id := some v0,
         amount_satoshi := some v3, payment_request := some v5,
         payment_hash := some v4, paid := v7, created := some v8,
         updated := some v9 }, none) := by
  simp only [fill_from_data_dict, h0, h1, h2, h3, h4, h5, h6, h7, h8, h9]

/-- A body lacking `id` raises `KeyError('id')` before any assignment. -/
lemma fill_missing_id (s : ChargeState) (d : DataDict) (hid : d.id = none) :
    fill_from_data_dict s d = (s, some "id") := by
  simp only [fill_from_data_dict, hid]

/-- Whatever else the body lacks, once it holds `id` the fill has set the
entity's `id` by the time it stops. -/
lemma fill_sets_id (s : ChargeState) (d : DataDict) (v : String)
    (h : d.id = some v) : ((fill_from_data_dict s d).1).id = some v := by
  obtain ⟨did, dam, dcu, das, dph, dpr, dde, dpa, dcr, dup, dco, dme⟩ := d
  simp only at h
  subst h
  unfold fill_from_data_dict
  rcases dam with _ | v1
  · rfl
  rcases dcu with _ | v2
  · rfl
  rcases das with _ | v3
  · rfl
  rcases dph with _ | v4
  · rfl
  rcases dpr with _ | v5
  · rfl
  rcases dde with _ | v6
  · rfl
  rcases dpa with _ | v7
  · rfl
  rcases dcr with _ | v8
  · rfl
  rcases dup with _ | v9 <;> rfl

/-- A lazy read that needs a synchronization performs exactly one and
returns the attribute from the refreshed state. -/
lemma getattr_sync (cfg : Config) (t : Transport) (s : ChargeState)
    (f : FieldName) (h : needsSync s f = true) :
    (getattrCharge cfg t s f).syncCount = 1 ∧
    ((getattrCharge cfg t s f).exc = none →
      (getattrCharge cfg t s f).value =
        some (readField (getattrCharge cfg t s f).state f)) := by
  simp only [getattrCharge, h, if_true]
  cases hu : (update cfg t s).exc <;> simp [hu]

/-- A lazy read that needs no synchronization is a pure slot read. -/
lemma getattr_nosync (cfg : Config) (t : Transport) (s : ChargeState)
    (f : FieldName) (h : needsSync s f = false) :
    getattrCharge cfg t s f =
      { state := s, exc := none, syncCount := 0,
        value := some (readField s f) } := by
  simp only [getattrCharge, h, Bool.false_eq_true, if_false]

/-! ## Claim C1 — the lazy field access contract (modelled from the spec) -/

/-- Claim C1 (the access layer is modelled from the spec): reading any of
the server-only fields id, amount_satoshi, payment_request, created,
updated while it is unset triggers exactly one synchronization and then
returns the field from the refreshed state; reading paid while still
false triggers exactly one synchronization; once paid is true, reading
paid triggers none and returns true. -/
theorem c1_lazy_field_access (cfg : Config) (t : Transport) (s : ChargeState) :
    (s.id = none → (getattrCharge cfg t s .id).syncCount = 1 ∧
      ((getattrCharge cfg t s .id).exc = none →
        (getattrCharge cfg t s .id).value =
          some (readField (getattrCharge cfg t s .id).state .id))) ∧
    (s.amount_satoshi = none →
      (getattrCharge cfg t s .amount_satoshi).syncCount = 1 ∧
      ((getattrCharge cfg t s .amount_satoshi).exc = none →
        (getattrCharge cfg t s .amount_satoshi).value =
          some (readField (getattrCharge cfg t s .amount_satoshi).state
            .amount_satoshi))) ∧
    (s.payment_request = none →
      (getattrCharge cfg t s .payment_request).syncCount = 1 ∧
      ((getattrCharge cfg t s .payment_request).exc = none →
        (getattrCharge cfg t s .payment_request).value =
          some (readField (getattrCharge cfg t s .payment_request).state
            .payment_request))) ∧
    (s.created = none → (getattrCharge cfg t s .created).syncCount = 1 ∧
      ((getattrCharge cfg t s .created).exc = none →
        (getattrCharge cfg t s .created).value =
          some (readField (getattrCharge cfg t s .created).state .created))) ∧
    (s.updated = none → (getattrCharge cfg t s .updated).syncCount = 1 ∧
      ((getattrCharge cfg t s .updated).exc = none →
        (getattrCharge cfg t s .updated).value =
          some (readField (getattrCharge cfg t s .updated).state .updated))) ∧
    (s.paid = false → (getattrCharge cfg t s .paid).syncCount = 1 ∧
      ((getattrCharge cfg t s .paid).exc = none →
        (getattrCharge cfg t s .paid).value =
          some (readField (getattrCharge cfg t s .paid).state .paid))) ∧
    (s.paid = true → getattrCharge cfg t s .paid =
      { state := s, exc := none, syncCount := 0,
        value := some (.bool true) }) := by
  refine ⟨fun h => ?_, fun h => ?_, fun h => ?_, fun h => ?_, fun h => ?_,
    fun h => ?_, fun h => ?_⟩
  · exact getattr_sync cfg t s .id (by simp [needsSync, h])
  · exact getattr_sync cfg t s .amount_satoshi (by simp [needsSync, h])
  · exact getattr_sync cfg t s .payment_request (by simp [needsSync, h])
  · exact getattr_sync cfg t s .created (by simp [needsSync, h])
  · exact getattr_sync cfg t s .updated (by simp [needsSync, h])
  · exact getattr_sync cfg t s .paid (by simp [needsSync, h])
  · rw [getattr_nosync cfg t s .paid (by simp [needsSync, h])]
    simp [readField, h]

/-- Witness for C1 at a fresh charge (everything unset, unpaid) and a
paid charge. -/
theorem c1_lazy_field_access_witness :
    s0.id = none ∧ s0.paid = false ∧ sPaid.paid = true ∧
    (getattrCharge cfg0 (pureTransport dFull) s0 .id).syncCount = 1 ∧
    (getattrCharge cfg0 (pureTransport dFull) s0 .paid).syncCount = 1 ∧
    getattrCharge cfg0 (pureTransport dFull) sPaid .paid =
      { state := sPaid, exc := none, syncCount := 0,
        value := some (.bool true) } :=
  ⟨rfl, rfl, rfl,
   ((c1_lazy_field_access cfg0 (pureTransport dFull) s0).1 rfl).1,
   ((c1_lazy_field_access cfg0 (pureTransport dFull) s0).2.2.2.2.2.1 rfl).1,
   (c1_lazy_field_access cfg0 (pureTransport dFull) sPaid).2.2.2.2.2.2 rfl⟩

/-! ## Claim C2 — mutation on failure (corrected) -/

/-- Counterexample to claim C2 as stated: a response carrying `id`, a
prefix of the further success keys and an error code makes `update()`
raise the taxonomy error `ChargeNotFoundException` — yet the entity has
been mutated: its `id` went from unset to `"ch_x"`. -/
theorem c2_counterexample :
    (update cfg0 (pureTransport dPartial404) s0).exc =
      some (.chargeNotFoundException "gone") ∧
    s0.id = none ∧
    (update cfg0 (pureTransport dPartial404) s0).state.id = some "ch_x" ∧
    (update cfg0 (pureTransport dPartial404) s0).state ≠ s0 := by
  decide

/-- Claim C2 as amended: a synchronization that fails at the transport
level leaves every field unchanged, and so does one whose parsed body
lacks the `id` key; a body carrying all success keys updates all
server-reported fields together in one step; but a body carrying `id`
(and possibly more) followed by a missing success key mutates the fields
read before the gap — in particular `id` — even though a taxonomy error
is raised. -/
theorem c2_mutation_on_failure_amended (cfg : Config) (t : Transport)
    (s : ChargeState) :
    (∀ e l, make_request t (buildRequest cfg s) = (.error e, l) →
      (update cfg t s).state = s) ∧
    (∀ d, t.send 0 = .ok → t.recv 0 = .ok (.wellFormed d) →
      ((d.id = none → (update cfg t s).state = s) ∧
       (∀ v0 v1 v2 v3 v4 v5 v6 v7 v8 v9,
         d.id = some v0 → d.amount = some v1 → d.currency = some v2 →
         d.amount_satoshi = some v3 → d.payment_hash = some v4 →
         d.payment_request = some v5 → d.description = some v6 →
         d.paid = some v7 → d.created = some v8 → d.updated = some v9 →
         (update cfg t s).exc = none ∧
         (update cfg t s).state =
           { amount := v1, currency := v2, description := v6,
             customer_id := s.customer_id, id := some v0,
             amount_satoshi := some v3, payment_request := some v5,
             payment_hash := some v4, paid := v7, created := some v8,
             updated := some v9 }) ∧
       (∀ v, d.id = some v → (update cfg t s).state.id = some v))) := by
  refine ⟨fun e l h => ?_, fun d hs hr => ?_⟩
  · rw [update_of_mr_error cfg t s e l h]
  · obtain ⟨hst, hexc⟩ := update_of_response cfg t s d hs hr
    refine ⟨fun hid => ?_, ?_, fun v hv => ?_⟩
    · rw [hst, fill_missing_id s d hid]
    · intro v0 v1 v2 v3 v4 v5 v6 v7 v8 v9 h0 h1 h2 h3 h4 h5 h6 h7 h8 h9
      rw [fill_complete s d v0 v1 v2 v3 v4 v5 v6 v7 v8 v9
        h0 h1 h2 h3 h4 h5 h6 h7 h8 h9] at hst hexc
      exact ⟨hexc, hst⟩
    · rw [hst]
      exact fill_sets_id s d v hv

/-- Witness for C2 as amended: a DNS failure mutates nothing, a complete
body fills everything in one step, and a partial body sets `id`. -/
theorem c2_mutation_on_failure_amended_witness :
    (update cfg0 tGaierror s0).state = s0 ∧
    (update cfg0 (pureTransport dFull) s0).exc = none ∧
    (update cfg0 (pureTransport dFull) s0).state =
      { amount := 4200, currency := "btc", description := "invoice",
        customer_id := s0.customer_id, id := some "ch_abc123",
        amount_satoshi := some 4200, payment_request := some "lntb1payreq",
        payment_hash := some "hash0", paid := false,
        created := some 1500000000, updated := some 1500000001 } ∧
    (update cfg0 (pureTransport dPartial404) s0).state.id = some "ch_x" := by
  refine ⟨?_, ?_, ?_, ?_⟩
  · exact (c2_mutation_on_failure_amended cfg0 tGaierror s0).1
      (.connectionException connMsg) [buildRequest cfg0 s0] (by rfl)
  · exact (((c2_mutation_on_failure_amended cfg0 (pureTransport dFull) s0).2
      dFull rfl rfl).2.1 "ch_abc123" 4200 "btc" 4200 "hash0" "lntb1payreq"
      "invoice" false 1500000000 1500000001
      rfl rfl rfl rfl rfl rfl rfl rfl rfl rfl).1
  · exact (((c2_mutation_on_failure_amended cfg0 (pureTransport dFull) s0).2
      dFull rfl rfl).2.1 "ch_abc123" 4200 "btc" 4200 "hash0" "lntb1payreq"
      "invoice" false 1500000000 1500000001
      rfl rfl rfl rfl rfl rfl rfl rfl rfl rfl).2
  · exact ((c2_mutation_on_failure_amended cfg0
      (pureTransport dPartial404) s0).2 dPartial404 rfl rfl).2.2 "ch_x" rfl

/-! ## Claim C3 — mode selection and request construction -/

/-- Claim C3: every `update()` first sends the request built from the
current state; when `id` is unset the mode is CREATE — method POST to
`api_base ++ "charges"` with the form-encoded caller fields
(amount, currency, description, customer_id) and headers holding Basic
auth (base64 of the API key with an empty password) plus the form
content-type; otherwise the mode is REFRESH — method GET to
`api_base ++ "charges/" ++ id` with no body and Basic-auth headers. -/
theorem c3_mode_and_request (cfg : Config) (t : Transport) (s : ChargeState) :
    (update cfg t s).log.head? = some (buildRequest cfg s) ∧
    (s.id = none → buildRequest cfg s =
      { method := "POST", path := cfg.api_base ++ "charges",
        body := some (urlencode
          [("amount", toString s.amount), ("currency", s.currency),
           ("description", s.description), ("customer_id", s.customer_id)]),
        headers :=
          [("Authorization", "Basic " ++ b64Encode (utf8Bytes cfg.api_key ++ [58])),
           ("Content-Type", "application/x-www-form-urlencoded"),
           ("Accept", "*/*"), ("User-Agent", "pystrikev0.5.1")] }) ∧
    (∀ i, s.id = some i → buildRequest cfg s =
      { method := "GET", path := cfg.api_base ++ "charges/" ++ i, body := none,
        headers :=
          [("Authorization", "Basic " ++ b64Encode (utf8Bytes cfg.api_key ++ [58])),
           ("Accept", "*/*"), ("User-Agent", "pystrikev0.5.1")] }) := by
  refine ⟨?_, ?_, ?_⟩
  · rw [update_log]
    exact make_request_log_head t (buildRequest cfg s)
  · intro h
    simp [buildRequest, h, authHeaderValue]
  · intro i h
    simp [buildRequest, h, authHeaderValue]

/-- Witness for C3 at a concrete configuration, a fresh charge (CREATE)
and an already-created charge (REFRESH). -/
theorem c3_mode_and_request_witness :
    s0.id = none ∧ sSynced.id = some "ch_abc123" ∧
    buildRequest cfg0 s0 =
      { method := "POST", path := cfg0.api_base ++ "charges",
        body := some (urlencode
          [("amount", toString s0.amount), ("currency", s0.currency),
           ("description", s0.description), ("customer_id", s0.customer_id)]),
        headers :=
          [("Authorization", "Basic " ++ b64Encode (utf8Bytes cfg0.api_key ++ [58])),
           ("Content-Type", "application/x-www-form-urlencoded"),
           ("Accept", "*/*"), ("User-Agent", "pystrikev0.5.1")] } ∧
    buildRequest cfg0 sSynced =
      { method := "GET", path := cfg0.api_base ++ "charges/" ++ "ch_abc123",
        body := none,
        headers :=
          [("Authorization", "Basic " ++ b64Encode (utf8Bytes cfg0.api_key ++ [58])),
           ("Accept", "*/*"), ("User-Agent", "pystrikev0.5.1")] } :=
  ⟨rfl, rfl,
   (c3_mode_and_request cfg0 (pureTransport dFull) s0).2.1 rfl,
   (c3_mode_and_request cfg0 (pureTransport dFull) sSynced).2.2 "ch_abc123" rfl⟩

/-! ## Claim C5 — the REFRESH retry-once rule -/

/-- Claim C5: for an `update()` in REFRESH mode (id set) whose first
response read hits a premature disconnect, the identical request is sent
exactly once more; if the retry itself fails at the connectivity level
(its `request()` raises, or its `getresponse()` disconnects again or
otherwise fails), `ConnectionException` is raised; and no execution of
`update()` ever sends more than two requests, two being possible only
for a GET whose first response read disconnected. -/
theorem c5_refresh_retry_once (cfg : Config) (t : Transport) (s : ChargeState) :
    (s.id ≠ none → t.send 0 = .ok → t.recv 0 = .remoteDisconnected →
      ((update cfg t s).log = [buildRequest cfg s, buildRequest cfg s] ∧
       (t.send 1 ≠ .ok →
         (update cfg t s).exc = some (.connectionException connMsg)) ∧
       (t.recv 1 = .remoteDisconnected ∨ t.recv 1 = .fail →
         (update cfg t s).exc = some (.connectionException connMsg)))) ∧
    (update cfg t s).log.length ≤ 2 ∧
    ((update cfg t s).log.length = 2 →
      (buildRequest cfg s).method = "GET" ∧
      t.recv 0 = .remoteDisconnected) := by
  refine ⟨?_, ?_, ?_⟩
  · intro hid h0 h1
    have hm : (buildRequest cfg s).method = "GET" := by
      simp [buildRequest, hid]
    obtain ⟨hlog, hfs, hfr⟩ :=
      make_request_get_retry t (buildRequest cfg s) hm h0 h1
    refine ⟨by rw [update_log]; exact hlog, ?_, ?_⟩
    · intro h
      have he := hfs h
      rcases hmr : make_request t (buildRequest cfg s) with ⟨res, l⟩
      rw [hmr] at he
      simp only at he
      subst he
      rw [update_of_mr_error cfg t s _ l hmr]
    · intro h
      have he := hfr h
      rcases hmr : make_request t (buildRequest cfg s) with ⟨res, l⟩
      rw [hmr] at he
      simp only at he
      subst he
      rw [update_of_mr_error cfg t s _ l hmr]
  · rw [update_log]
    exact (make_request_log_bound t (buildRequest cfg s)).1
  · rw [update_log]
    exact (make_request_log_bound t (buildRequest cfg s)).2

/-- Witness for C5: a REFRESH whose first read disconnects resends the
same request once (and succeeds on a well-behaved retry); when every
read disconnects, `ConnectionException` is raised. -/
theorem c5_refresh_retry_once_witness :
    sSynced.id ≠ none ∧
    (update cfg0 (tDiscThen dFull) sSynced).log =
      [buildRequest cfg0 sSynced, buildRequest cfg0 sSynced] ∧
    (update cfg0 tDiscAll sSynced).exc =
      some (.connectionException connMsg) := by
  refine ⟨by decide, ?_, ?_⟩
  · exact ((c5_refresh_retry_once cfg0 (tDiscThen dFull) sSynced).1
      (by decide) rfl rfl).1
  · exact ((c5_refresh_retry_once cfg0 tDiscAll sSynced).1
      (by decide) rfl rfl).2.2 (Or.inl rfl)

/-! ## Claim C6 — CREATE premature disconnect (code bug) -/

/-- Claim C6 (code bug): for a CREATE (POST) whose response read hits a
premature disconnect, no retry is performed — but the failure does NOT
surface as `ConnectionException`: the `except RemoteDisconnected:`
handler swallows the exception without binding `response`, and
`json.loads(response.read())`, which sits outside the `try:`, raises
`UnboundLocalError` instead. -/
theorem c6_create_disconnect_unbound :
    (update cfg0 tDiscAll s0).exc = some (.unboundLocalError "response") ∧
    (update cfg0 tDiscAll s0).state = s0 ∧
    (update cfg0 tDiscAll s0).log.length = 1 ∧
    (PyExc.unboundLocalError "response").isTaxonomy = false := by
  decide

/-! ## Classification lemmas -/

/-- When the fill is incomplete, `update()` raises the classification of
the body. -/
lemma update_exc_incomplete (cfg : Config) (t : Transport) (s : ChargeState)
    (d : DataDict) (hs : t.send 0 = .ok)
    (hr : t.recv 0 = .ok (.wellFormed d))
    (hk : (fill_from_data_dict s d).2 ≠ none) :
    (update cfg t s).exc = some (classifyError d) := by
  obtain ⟨hst, hexc⟩ := update_of_response cfg t s d hs hr
  rcases h : (fill_from_data_dict s d).2 with _ | k
  · exact absurd h hk
  · rw [hexc, h]
    rfl

/-- Code 404 with a message classifies as `ChargeNotFoundException`. -/
lemma classify_404 (d : DataDict) (m : String) (hc : d.code = some 404)
    (hm : d.message = some m) :
    classifyError d = .chargeNotFoundException m := by
  simp [classifyError, hc, hm]

/-- A non-404 code in 400–499 with a message classifies as
`ClientRequestException`. -/
lemma classify_4xx (d : DataDict) (c : Int) (m : String) (hc : d.code = some c)
    (h404 : c ≠ 404) (h1 : 400 ≤ c) (h2 : c ≤ 499)
    (hm : d.message = some m) :
    classifyError d = .clientRequestException m := by
  simp only [classifyError, hc]
  rw [if_neg h404, if_pos ⟨h1, h2⟩, hm]

/-- A code in 500–599 with a message classifies as
`ServerErrorException`. -/
lemma classify_5xx (d : DataDict) (c : Int) (m : String) (hc : d.code = some c)
    (h1 : 500 ≤ c) (h2 : c ≤ 599) (hm : d.message = some m) :
    classifyError d = .serverErrorException m := by
  simp only [classifyError, hc]
  rw [if_neg (by omega : ¬c = 404), if_neg (by omega : ¬(400 ≤ c ∧ c ≤ 499)),
    if_pos ⟨h1, h2⟩, hm]

/-- A code in 400–599 with no message key: the message lookup inside the
`raise` statement itself raises `KeyError`. -/
lemma classify_nomsg (d : DataDict) (c : Int) (hc : d.code = some c)
    (h1 : 400 ≤ c) (h2 : c ≤ 599) (hm : d.message = none) :
    classifyError d = .keyError "message" := by
  simp only [classifyError, hc]
  by_cases h404 : c = 404
  · rw [if_pos h404, hm]
  · by_cases h4 : c ≤ 499
    · rw [if_neg h404, if_pos ⟨h1, h4⟩, hm]
    · rw [if_neg h404, if_neg (by omega : ¬(400 ≤ c ∧ c ≤ 499)),
        if_pos ⟨by omega, h2⟩, hm]

/-- A code outside 400–599 classifies as `UnexpectedResponseException`
carrying the dumped body. -/
lemma classify_other (d : DataDict) (c : Int) (hc : d.code = some c)
    (h : ¬(400 ≤ c ∧ c ≤ 599)) :
    classifyError d = .unexpectedResponseException (unexpectedMsg d) := by
  simp only [classifyError, hc]
  rw [if_neg (by omega : ¬c = 404), if_neg (by omega : ¬(400 ≤ c ∧ c ≤ 499)),
    if_neg (by omega : ¬(500 ≤ c ∧ c ≤ 599))]

/-- A body with no code key classifies as
`UnexpectedResponseException` carrying the dumped body. -/
lemma classify_nocode (d : DataDict) (hc : d.code = none) :
    classifyError d = .unexpectedResponseException (unexpectedMsg d) := by
  rw [classifyError, hc]

/-- Whenever a message key is present, the classification is one of the
taxonomy exceptions. -/
lemma classify_taxonomy_of_msg (d : DataDict) (m : String)
    (hm : d.message = some m) : (classifyError d).isTaxonomy = true := by
  rcases hc : d.code with _ | c
  · rw [classify_nocode d hc]
    rfl
  · by_cases h404 : c = 404
    · rw [h404] at hc
      rw [classify_404 d m hc hm]
      rfl
    · by_cases h4 : 400 ≤ c ∧ c ≤ 499
      · rw [classify_4xx d c m hc h404 h4.1 h4.2 hm]
        rfl
      · by_cases h5 : 500 ≤ c ∧ c ≤ 599
        · rw [classify_5xx d c m hc h5.1 h5.2 hm]
          rfl
        · rw [classify_other d c hc (by omega)]
          rfl

/-! ## Claim C4 — error classification (corrected) -/

/-- Counterexample to claim C4 as stated: the body `{"code": 404}` has a
recognized status code but no message, so instead of
`ChargeNotFoundException` the lookup `data['message']` raises a bare
`KeyError`, which is not a taxonomy exception. -/
theorem c4_counterexample :
    dCode404.code = some 404 ∧ dCode404.id = none ∧
    (update cfg0 (pureTransport dCode404) s0).exc =
      some (.keyError "message") ∧
    (PyExc.keyError "message").isTaxonomy = false := by
  decide

/-- Claim C4 as amended: for a parsed body that fails the fill and has a
numeric code, `update()` raises the classification of the body: 404 with
a message gives `ChargeNotFoundException(message)`; another 400–499 code
with a message gives `ClientRequestException(message)`; 500–599 with a
message gives `ServerErrorException(message)`; any code outside 400–599
gives `UnexpectedResponseException` carrying the raw body, no message
needed; but a 400–599 code without a message makes the message lookup
itself fail with `KeyError`.  A body with neither the success shape nor
a code gives `UnexpectedResponseException` carrying the raw body. -/
theorem c4_error_classification_amended (cfg : Config) (t : Transport)
    (s : ChargeState) (d : DataDict) (hs : t.send 0 = .ok)
    (hr : t.recv 0 = .ok (.wellFormed d))
    (hk : (fill_from_data_dict s d).2 ≠ none) :
    (update cfg t s).exc = some (classifyError d) ∧
    (∀ c, d.code = some c →
      ((c = 404 → ∀ m, d.message = some m →
         classifyError d = .chargeNotFoundException m) ∧
       (c ≠ 404 → 400 ≤ c → c ≤ 499 → ∀ m, d.message = some m →
         classifyError d = .clientRequestException m) ∧
       (500 ≤ c → c ≤ 599 → ∀ m, d.message = some m →
         classifyError d = .serverErrorException m) ∧
       (¬(400 ≤ c ∧ c ≤ 599) →
         classifyError d = .unexpectedResponseException (unexpectedMsg d)) ∧
       (400 ≤ c → c ≤ 599 → d.message = none →
         classifyError d = .keyError "message"))) ∧
    (d.code = none →
      classifyError d = .unexpectedResponseException (unexpectedMsg d)) := by
  refine ⟨update_exc_incomplete cfg t s d hs hr hk, fun c hc => ?_,
    classify_nocode d⟩
  refine ⟨fun h404 m hm => ?_, fun h404 h1 h2 m hm => ?_,
    fun h1 h2 m hm => ?_, fun h => ?_, fun h1 h2 hm => ?_⟩
  · exact classify_404 d m (h404 ▸ hc) hm
  · exact classify_4xx d c m hc h404 h1 h2 hm
  · exact classify_5xx d c m hc h1 h2 hm
  · exact classify_other d c hc h
  · exact classify_nomsg d c hc h1 h2 hm

/-- Witness for C4 as amended: each classification branch at a concrete
body, and the raised exception of a concrete `update()`. -/
theorem c4_error_classification_amended_witness :
    (fill_from_data_dict s0 dErr404).2 ≠ none ∧
    (update cfg0 (pureTransport dErr404) s0).exc =
      some (classifyError dErr404) ∧
    classifyError dErr404 = .chargeNotFoundException "Charge not found" ∧
    classifyError dErr422 = .clientRequestException "invalid currency" ∧
    classifyError dErr500m = .serverErrorException "server broke" ∧
    classifyError dCode302 =
      .unexpectedResponseException (unexpectedMsg dCode302) ∧
    classifyError dCode500 = .keyError "message" := by
  refine ⟨by decide, ?_, ?_, ?_, ?_, ?_, ?_⟩
  · exact (c4_error_classification_amended cfg0 (pureTransport dErr404) s0
      dErr404 rfl rfl (by decide)).1
  · exact ((c4_error_classification_amended cfg0 (pureTransport dErr404) s0
      dErr404 rfl rfl (by decide)).2.1 404 rfl).1 rfl "Charge not found" rfl
  · exact ((c4_error_classification_amended cfg0 (pureTransport dErr422) s0
      dErr422 rfl rfl (by decide)).2.1 422 rfl).2.1 (by decide) (by decide)
      (by decide) "invalid currency" rfl
  · exact ((c4_error_classification_amended cfg0 (pureTransport dErr500m) s0
      dErr500m rfl rfl (by decide)).2.1 500 rfl).2.2.1 (by decide) (by decide)
      "server broke" rfl
  · exact ((c4_error_classification_amended cfg0 (pureTransport dCode302) s0
      dCode302 rfl rfl (by decide)).2.1 302 rfl).2.2.2.1 (by decide)
  · exact ((c4_error_classification_amended cfg0 (pureTransport dCode500) s0
      dCode500 rfl rfl (by decide)).2.1 500 rfl).2.2.2.2 (by decide)
      (by decide) rfl

/-! ## Claim C10 — id-less bodies: atomicity, classification (corrected) -/

/-- Counterexample to claim C10 as stated: the id-less body
`{"code": 500}` indeed mutates nothing, but the raised exception is a
bare `KeyError` from the `data['message']` lookup, not a classified
taxonomy exception. -/
theorem c10_counterexample :
    dCode500.id = none ∧
    (update cfg0 (pureTransport dCode500) s0).state = s0 ∧
    (update cfg0 (pureTransport dCode500) s0).exc =
      some (.keyError "message") ∧
    (PyExc.keyError "message").isTaxonomy = false := by
  decide

/-- Claim C10 as amended: for every parsed body lacking `id`, the
`KeyError` on `id` occurs before any assignment, so no entity field is
mutated and `update()` raises the body's classification; that
classification is a taxonomy exception whenever the body has no code,
has a message, or has a code outside 400–599 — but a 400–599 code with
no message makes the message lookup itself raise `KeyError`. -/
theorem c10_idless_atomicity_amended (cfg : Config) (t : Transport)
    (s : ChargeState) (d : DataDict) (hs : t.send 0 = .ok)
    (hr : t.recv 0 = .ok (.wellFormed d)) (hid : d.id = none) :
    (update cfg t s).state = s ∧
    (update cfg t s).exc = some (classifyError d) ∧
    (d.code = none → (classifyError d).isTaxonomy = true) ∧
    (∀ m, d.message = some m → (classifyError d).isTaxonomy = true) ∧
    (∀ c, d.code = some c → ¬(400 ≤ c ∧ c ≤ 599) →
      (classifyError d).isTaxonomy = true) ∧
    (∀ c, d.code = some c → 400 ≤ c → c ≤ 599 → d.message = none →
      classifyError d = .keyError "message") := by
  have hk : (fill_from_data_dict s d).2 ≠ none := by
    rw [fill_missing_id s d hid]
    exact fun h => Option.noConfusion h
  obtain ⟨hst, _⟩ := update_of_response cfg t s d hs hr
  refine ⟨by rw [hst, fill_missing_id s d hid],
    update_exc_incomplete cfg t s d hs hr hk,
    fun hc => ?_, classify_taxonomy_of_msg d, fun c hc h => ?_,
    fun c hc h1 h2 hm => classify_nomsg d c hc h1 h2 hm⟩
  · rw [classify_nocode d hc]
    rfl
  · rw [classify_other d c hc h]
    rfl

/-- Witness for C10 as amended at the concrete id-less bodies. -/
theorem c10_idless_atomicity_amended_witness :
    dErr404.id = none ∧
    (update cfg0 (pureTransport dErr404) s0).state = s0 ∧
    (classifyError dErr404).isTaxonomy = true ∧
    (update cfg0 (pureTransport dCode302) s0).state = s0 ∧
    (classifyError dCode302).isTaxonomy = true ∧
    classifyError dCode500 = .keyError "message" := by
  refine ⟨by decide, ?_, ?_, ?_, ?_, ?_⟩
  · exact (c10_idless_atomicity_amended cfg0 (pureTransport dErr404) s0
      dErr404 rfl rfl rfl).1
  · exact (c10_idless_atomicity_amended cfg0 (pureTransport dErr404) s0
      dErr404 rfl rfl rfl).2.2.2.1 "Charge not found" rfl
  · exact (c10_idless_atomicity_amended cfg0 (pureTransport dCode302) s0
      dCode302 rfl rfl rfl).1
  · exact (c10_idless_atomicity_amended cfg0 (pureTransport dCode302) s0
      dCode302 rfl rfl rfl).2.2.2.2.1 302 rfl (by decide)
  · exact (c10_idless_atomicity_amended cfg0 (pureTransport dCode500) s0
      dCode500 rfl rfl rfl).2.2.2.2.2 500 rfl (by decide) (by decide) rfl

/-- Once the body carries the success keys through `paid`, the fill has
copied the server's `paid` value by the time it stops, whether or not it
completes. -/
lemma fill_sets_paid (s : ChargeState) (d : DataDict)
    (v0 : String) (v1 : Int) (v2 : String) (v3 : Int) (v4 v5 v6 : String)
    (v7 : Bool)
    (h0 : d.id = some v0) (h1 : d.amount = some v1) (h2 : d.currency = some v2)
    (h3 : d.amount_satoshi = some v3) (h4 : d.payment_hash = some v4)
    (h5 : d.payment_request = some v5) (h6 : d.description = some v6)
    (h7 : d.paid = some v7) :
    ((fill_from_data_dict s d).1).paid = v7 := by
  simp only [fill_from_data_dict, h0, h1, h2, h3, h4, h5, h6, h7]
  rcases d.created with _ | v8
  · rfl
  rcases d.updated with _ | v9 <;> rfl

/-! ## Claim C7 — malformed response body (corrected) -/

/-- Counterexample to claim C7 as stated: a malformed body makes
`update()` raise the parser's own `json.JSONDecodeError` — the
`json.loads` call sits outside every `try:` — not
`UnexpectedResponseException`, and not any taxonomy exception. -/
theorem c7_counterexample :
    (update cfg0 tMalformed sSynced).exc = some .jsonDecodeError ∧
    PyExc.jsonDecodeError.isTaxonomy = false := by
  decide

/-- Claim C7 as amended: a response body that cannot be parsed makes
`update()` propagate the generic JSON parse error uncaught (with the
entity unchanged), on the first attempt and equally on the GET retry;
`UnexpectedResponseException` is reserved for well-formed bodies of
unrecognized shape. -/
theorem c7_malformed_body_amended (cfg : Config) (t : Transport)
    (s : ChargeState) :
    (t.send 0 = .ok → t.recv 0 = .ok .malformed →
      update cfg t s =
        { state := s, exc := some .jsonDecodeError,
          log := [buildRequest cfg s] }) ∧
    (s.id ≠ none → t.send 0 = .ok → t.recv 0 = .remoteDisconnected →
      t.send 1 = .ok → t.recv 1 = .ok .malformed →
      update cfg t s =
        { state := s, exc := some .jsonDecodeError,
          log := [buildRequest cfg s, buildRequest cfg s] }) := by
  constructor
  · intro hs hr
    have hmr : make_request t (buildRequest cfg s) =
        (.error .jsonDecodeError, [buildRequest cfg s]) := by
      unfold make_request
      rw [hs, hr]
      rfl
    exact update_of_mr_error cfg t s _ _ hmr
  · intro hid hs hr hs1 hr1
    have hm : (buildRequest cfg s).method = "GET" := by
      simp [buildRequest, hid]
    have hmr : make_request t (buildRequest cfg s) =
        (.error .jsonDecodeError,
          [buildRequest cfg s, buildRequest cfg s]) := by
      unfold make_request
      rw [hs, hr, if_pos hm, hs1, hr1]
      rfl
    exact update_of_mr_error cfg t s _ _ hmr

/-- Witness for C7 as amended: a malformed first body on a CREATE, and a
malformed retry body on a REFRESH. -/
theorem c7_malformed_body_amended_witness :
    update cfg0 tMalformed s0 =
      { state := s0, exc := some .jsonDecodeError,
        log := [buildRequest cfg0 s0] } ∧
    sSynced.id ≠ none ∧
    update cfg0 tDiscMalformed sSynced =
      { state := sSynced, exc := some .jsonDecodeError,
        log := [buildRequest cfg0 sSynced, buildRequest cfg0 sSynced] } :=
  ⟨(c7_malformed_body_amended cfg0 tMalformed s0).1 rfl rfl,
   by decide,
   (c7_malformed_body_amended cfg0 tDiscMalformed sSynced).2
     (by decide) rfl rfl rfl rfl⟩

/-! ## Claim C8 — `paid` dynamics (corrected) -/

set_option maxRecDepth 4096 in
/-- Counterexample to claim C8 as stated: a successful refresh whose
response reports `paid = false` reverts a paid charge's `paid` from true
back to false; and a partially-filling body that reaches the `paid` key
but misses `created` sets `paid` to true even though the
synchronization fails. -/
theorem c8_counterexample :
    sPaid.paid = true ∧
    (update cfg0 (pureTransport dRevert) sPaid).exc = none ∧
    (update cfg0 (pureTransport dRevert) sPaid).state.paid = false ∧
    s0.paid = false ∧
    (update cfg0 (pureTransport dPartialPaid) s0).exc =
      some (.unexpectedResponseException (unexpectedMsg dPartialPaid)) ∧
    (update cfg0 (pureTransport dPartialPaid) s0).state.paid = true := by
  decide

/-- Claim C8 as amended: `paid` starts false at construction; once it is
true, reading `paid` never triggers a synchronization and returns true;
a synchronization that fails at the transport level leaves the entity —
`paid` included — unchanged; but any fill that reaches the `paid` key
copies the server's value verbatim, so a response with `paid = false`
does revert it, and a fill failing after `paid` sets it without a
successful synchronization. -/
theorem c8_paid_dynamics_amended (cfg : Config) (t : Transport)
    (s : ChargeState) :
    (initCharge s.amount s.currency s.description s.customer_id).paid
      = false ∧
    (s.paid = true → getattrCharge cfg t s .paid =
      { state := s, exc := none, syncCount := 0,
        value := some (.bool true) }) ∧
    (∀ e l, make_request t (buildRequest cfg s) = (.error e, l) →
      (update cfg t s).state = s) ∧
    (∀ d v0 v1 v2 v3 v4 v5 v6 v7,
      t.send 0 = .ok → t.recv 0 = .ok (.wellFormed d) →
      d.id = some v0 → d.amount = some v1 → d.currency = some v2 →
      d.amount_satoshi = some v3 → d.payment_hash = some v4 →
      d.payment_request = some v5 → d.description = some v6 →
      d.paid = some v7 →
      (update cfg t s).state.paid = v7) := by
  refine ⟨rfl, fun h => ?_, fun e l h => ?_, ?_⟩
  · rw [getattr_nosync cfg t s .paid (by simp [needsSync, h])]
    simp [readField, h]
  · rw [update_of_mr_error cfg t s e l h]
  · intro d v0 v1 v2 v3 v4 v5 v6 v7 hs hr h0 h1 h2 h3 h4 h5 h6 h7
    rw [(update_of_response cfg t s d hs hr).1]
    exact fill_sets_paid s d v0 v1 v2 v3 v4 v5 v6 v7 h0 h1 h2 h3 h4 h5 h6 h7

/-- Witness for C8 as amended at a paid charge and concrete responses. -/
theorem c8_paid_dynamics_amended_witness :
    (initCharge sPaid.amount sPaid.currency sPaid.description
      sPaid.customer_id).paid = false ∧
    sPaid.paid = true ∧
    getattrCharge cfg0 (pureTransport dRevert) sPaid .paid =
      { state := sPaid, exc := none, syncCount := 0,
        value := some (.bool true) } ∧
    (update cfg0 tGaierror sPaid).state = sPaid ∧
    (update cfg0 (pureTransport dRevert) sPaid).state.paid = false :=
  ⟨(c8_paid_dynamics_amended cfg0 (pureTransport dRevert) sPaid).1,
   rfl,
   (c8_paid_dynamics_amended cfg0 (pureTransport dRevert) sPaid).2.1 rfl,
   (c8_paid_dynamics_amended cfg0 tGaierror sPaid).2.2.1
     (.connectionException connMsg) [buildRequest cfg0 sPaid] (by rfl),
   (c8_paid_dynamics_amended cfg0 (pureTransport dRevert) sPaid).2.2.2
     dRevert "ch_abc123" 4200 "btc" 4200 "hash0" "lntb1payreq" "invoice"
     false rfl rfl rfl rfl rfl rfl rfl rfl rfl rfl⟩

/-! ## Claim C9 — caller-supplied fields under synchronization (corrected) -/

/-- Counterexample to claim C9 as stated: two charges differing only in
`customer_id` refreshed with the same server response keep their
different `customer_id` values — the fill never writes `customer_id`
(the success shape has no such key), so it is not overwritten with any
server value. -/
theorem c9_counterexample :
    (update cfg0 (pureTransport dFull) sCustA).exc = none ∧
    (update cfg0 (pureTransport dFull) sCustA).state.customer_id
      = "custA" ∧
    (update cfg0 (pureTransport dFull) sCustB).exc = none ∧
    (update cfg0 (pureTransport dFull) sCustB).state.customer_id
      = "custB" ∧
    sCustA.customer_id ≠ sCustB.customer_id := by
  decide

/-- Claim C9 as amended: reading any caller-supplied field (amount,
currency, description, customer_id) never triggers a synchronization;
every successful synchronization overwrites amount, currency and
description with the server's values, while customer_id always keeps the
caller's value. -/
theorem c9_caller_fields_amended (cfg : Config) (t : Transport)
    (s : ChargeState) :
    (getattrCharge cfg t s .amount).syncCount = 0 ∧
    (getattrCharge cfg t s .currency).syncCount = 0 ∧
    (getattrCharge cfg t s .description).syncCount = 0 ∧
    (getattrCharge cfg t s .customer_id).syncCount = 0 ∧
    (∀ d v0 v1 v2 v3 v4 v5 v6 v7 v8 v9,
      t.send 0 = .ok → t.recv 0 = .ok (.wellFormed d) →
      d.id = some v0 → d.amount = some v1 → d.currency = some v2 →
      d.amount_satoshi = some v3 → d.payment_hash = some v4 →
      d.payment_request = some v5 → d.description = some v6 →
      d.paid = some v7 → d.created = some v8 → d.updated = some v9 →
      (update cfg t s).exc = none ∧
      (update cfg t s).state.amount = v1 ∧
      (update cfg t s).state.currency = v2 ∧
      (update cfg t s).state.description = v6 ∧
      (update cfg t s).state.customer_id = s.customer_id) := by
  refine ⟨by rw [getattr_nosync cfg t s .amount rfl],
    by rw [getattr_nosync cfg t s .currency rfl],
    by rw [getattr_nosync cfg t s .description rfl],
    by rw [getattr_nosync cfg t s .customer_id rfl], ?_⟩
  intro d v0 v1 v2 v3 v4 v5 v6 v7 v8 v9 hs hr h0 h1 h2 h3 h4 h5 h6 h7 h8 h9
  obtain ⟨hst, hexc⟩ := update_of_response cfg t s d hs hr
  rw [fill_complete s d v0 v1 v2 v3 v4 v5 v6 v7 v8 v9
    h0 h1 h2 h3 h4 h5 h6 h7 h8 h9] at hst hexc
  exact ⟨hexc, by rw [hst], by rw [hst], by rw [hst], by rw [hst]⟩

/-- Witness for C9 as amended at a concrete charge and response. -/
theorem c9_caller_fields_amended_witness :
    (getattrCharge cfg0 (pureTransport dFull) sCustA .customer_id).syncCount
      = 0 ∧
    (update cfg0 (pureTransport dFull) sCustA).exc = none ∧
    (update cfg0 (pureTransport dFull) sCustA).state.amount = 4200 ∧
    (update cfg0 (pureTransport dFull) sCustA).state.customer_id
      = sCustA.customer_id :=
  ⟨(c9_caller_fields_amended cfg0 (pureTransport dFull) sCustA).2.2.2.1,
   ((c9_caller_fields_amended cfg0 (pureTransport dFull) sCustA).2.2.2.2
     dFull "ch_abc123" 4200 "btc" 4200 "hash0" "lntb1payreq" "invoice"
     false 1500000000 1500000001
     rfl rfl rfl rfl rfl rfl rfl rfl rfl rfl rfl rfl).1,
   ((c9_caller_fields_amended cfg0 (pureTransport dFull) sCustA).2.2.2.2
     dFull "ch_abc123" 4200 "btc" 4200 "hash0" "lntb1payreq" "invoice"
     false 1500000000 1500000001
     rfl rfl rfl rfl rfl rfl rfl rfl rfl rfl rfl rfl).2.1,
   ((c9_caller_fields_amended cfg0 (pureTransport dFull) sCustA).2.2.2.2
     dFull "ch_abc123" 4200 "btc" 4200 "hash0" "lntb1payreq" "invoice"
     false 1500000000 1500000001
     rfl rfl rfl rfl rfl rfl rfl rfl rfl rfl rfl rfl).2.2.2.2⟩

end Pystrike
